import Mathlib

/-!
Verification development for the GuitarEffects repository: a small pyo-based
audio-effects layer (RingMod, Flanger, and example scripts constructing a
Phaser and a Vocoder).  The repository composes primitives of the external
pyo library (Sine, Sig, Delay, Interp, InputFader); those primitives are not
part of the sources of the repository, so their semantics are modelled from the
specification, while every composition step (constructor wiring, setters,
play/stop cascades, property accessors) is translated directly from the
Python sources `RingMod.py` and `flanger.py`.

Two embeddings are used:
* a computable state model over `ℚ` for attribute/lifecycle behaviour
  (constructors, setters, property accessors, play/stop, the input
  crossfader bookkeeping, and the Phaser/Vocoder frequency ladder);
* a real-valued signal model (`ℝ`, `Real.sin`) for the per-sample output
  formulas of RingMod and Flanger.
-/

namespace GuitarEffects

/-- Modelled from the spec: lifecycle state of a primitive pyo node
(the `play`/`stop` state machine of §4.1).  `startCount` counts
`Stopped → Playing` transitions; starting an already-Playing node is a
no-op, stopping is always allowed. -/
structure PNode where
  playing : Bool
  startCount : ℕ
  deriving DecidableEq, Repr

/-- Modelled from the spec: `play` on a primitive node.  A no-op when the
node is already Playing; otherwise transitions to Playing and counts the
start. -/
def pnodePlay (s : PNode) : PNode :=
  if s.playing then s else { playing := true, startCount := s.startCount + 1 }

/-- Modelled from the spec: `stop` on a primitive node: transitions to
Stopped; the start count is unchanged. -/
def pnodeStop (s : PNode) : PNode :=
  { playing := false, startCount := s.startCount }

/-- A freshly constructed primitive node: Stopped, never started. -/
def pnodeFresh : PNode :=
  { playing := false, startCount := 0 }

/-- Modelled from the spec: a stopped node outputs silence (all-zero
stream); a playing node outputs its computed value `v`. -/
def gatedOut (p : PNode) (v : ℚ) : ℚ :=
  if p.playing then v else 0

/-- Modelled from the spec: state of the pyo `InputFader` crossfader used
by `setInput`: the current input reference, the previous input still being
faded out (if any), and the duration of the linear crossfade in seconds. -/
structure FaderState where
  input : ℕ
  old : Option ℕ
  fadetime : ℚ
  deriving DecidableEq, Repr

/-- Modelled from the spec: `InputFader(input)` at construction: a single
input, no fade in progress. -/
def faderMake (input : ℕ) : FaderState :=
  { input := input, old := none, fadetime := 0 }

/-- `InputFader.setInput(x, fadetime)`: the new input becomes current, the
previously current input is kept as the old input being faded out over
`fadetime` seconds. -/
def faderSetInput (f : FaderState) (x : ℕ) (fadetime : ℚ) : FaderState :=
  { input := x, old := some f.input, fadetime := fadetime }

/-- Modelled from the spec: the linear amplitude ramp of the crossfader for the
new input, `t` seconds after the swap: `t / fadetime`, reaching `1` once
`t` reaches `fadetime` (a zero fadetime switches immediately). -/
def faderGain (fadetime t : ℚ) : ℚ :=
  if fadetime ≤ t then 1 else t / fadetime

/-- Modelled from the spec: once the ramp completes (elapsed time `t`
reaches `fadetime`) the old input is released from the fader and stopped;
before that both the fader state and the lifecycle state of the old
input are untouched.  Returns the fader state and the lifecycle state of
the old input. -/
def faderAfter (f : FaderState) (t : ℚ) (oldLife : PNode) : FaderState × PNode :=
  if f.fadetime ≤ t then ({ f with old := none }, pnodeStop oldLife) else (f, oldLife)

/-- State of the internal `Sine` oscillator node as the repository uses it:
its frequency attribute and its lifecycle state. -/
structure SineNode where
  freq : ℚ
  life : PNode
  deriving DecidableEq, Repr

/-- State of the RingMod field `_ring = Sig(self._mod, mul=mul, add=add)` wrapper:
its `mul` and `add` attributes (its base objects are the base objects of
the RingMod itself, so its lifecycle is that of the RingMod). -/
structure RingSig where
  mul : ℚ
  add : ℚ
  deriving DecidableEq, Repr

/-- State of a `RingMod` object, one field per attribute set in
`RingMod.__init__` (`RingMod.py`): the stored input reference and `freq`
attribute, the `InputFader`, the `Sine` modulator, the output `Sig`, and
the `PyoObject` lifecycle state of the object itself. -/
structure RingModState where
  input : ℕ
  freq : ℚ
  in_fader : FaderState
  mod : SineNode
  ring : RingSig
  life : PNode
  deriving DecidableEq, Repr

/-- `RingMod.__init__(input, freq, mul, add)` translated from `RingMod.py`:
stores `input` and `freq`, builds `InputFader(input)`,
`Sine(freq=freq, mul=in_fader)` and `Sig(mod, mul=mul, add=add)`. -/
def ringModMake (input : ℕ) (freq mul add : ℚ) : RingModState :=
  { input := input
    freq := freq
    in_fader := faderMake input
    mod := { freq := freq, life := pnodeFresh }
    ring := { mul := mul, add := add }
    life := pnodeFresh }

/-- The default arguments in the source: `freq=100, mul=1, add=0`. -/
def ringModMakeDefault (input : ℕ) : RingModState :=
  ringModMake input 100 1 0

/-- `RingMod.setInput(x, fadetime)`: stores the new input reference and
forwards `x` and `fadetime` to the `InputFader`. -/
def ringModSetInput (s : RingModState) (x : ℕ) (fadetime : ℚ) : RingModState :=
  { s with input := x, in_fader := faderSetInput s.in_fader x fadetime }

/-- `RingMod.setInput(x)` with the `fadetime` argument omitted: the source
default is `fadetime=0.05`. -/
def ringModSetInputDefault (s : RingModState) (x : ℕ) : RingModState :=
  ringModSetInput s x (1/20)

/-- `RingMod.setFreq(x)`: stores the new `freq` attribute and assigns `freq` on
the internal oscillator. -/
def ringModSetFreq (s : RingModState) (x : ℚ) : RingModState :=
  { s with freq := x, mod := { s.mod with freq := x } }

/-- `RingMod.play`: plays the `_mod` oscillator, then `PyoObject.play` on
the object itself. -/
def ringModPlay (s : RingModState) : RingModState :=
  { s with mod := { s.mod with life := pnodePlay s.mod.life }, life := pnodePlay s.life }

/-- `RingMod.stop`: stops the `_mod` oscillator, then `PyoObject.stop` on
the object itself. -/
def ringModStop (s : RingModState) : RingModState :=
  { s with mod := { s.mod with life := pnodeStop s.mod.life }, life := pnodeStop s.life }

/-- The `input` property getter: returns `self._input`. -/
def ringModInputGet (s : RingModState) : ℕ :=
  s.input

/-- The `input` property setter: `self.setInput(x)` (default fadetime). -/
def ringModInputAssign (s : RingModState) (x : ℕ) : RingModState :=
  ringModSetInputDefault s x

/-- The `freq` property getter: returns `self._freq`. -/
def ringModFreqGet (s : RingModState) : ℚ :=
  s.freq

/-- The `freq` property setter: `self.setFreq(x)`. -/
def ringModFreqAssign (s : RingModState) (x : ℚ) : RingModState :=
  ringModSetFreq s x

/-- State of the Flanger field `_modamp = Sig(depth, mul=0.005)` node: its scalar
`value` attribute, its constant `mul`, and its lifecycle state. -/
structure ModAmpNode where
  value : ℚ
  mul : ℚ
  life : PNode
  deriving DecidableEq, Repr

/-- State of the Flanger field `_mod = Sine(freq=lfofreq, mul=modamp, add=0.005)`
LFO: its frequency, constant `add` offset, and lifecycle state (its `mul`
is a reference to the `_modamp` node). -/
structure LfoNode where
  freq : ℚ
  add : ℚ
  life : PNode
  deriving DecidableEq, Repr

/-- State of the Flanger field `_dls = Delay(in_fader, delay=mod, feedback=fb)`
delay line: its `feedback` attribute and lifecycle state. -/
structure DelayNode where
  feedback : ℚ
  life : PNode
  deriving DecidableEq, Repr

/-- State of the Flanger field `_flange = Interp(in_fader, dls, mul=mul, add=add)`
output node: its `mul` and `add` (base objects of the Flanger itself). -/
structure InterpNode where
  mul : ℚ
  add : ℚ
  deriving DecidableEq, Repr

/-- State of a `Flanger` object, one field per attribute set in
`Flanger.__init__` (`flanger.py`). -/
structure FlangerState where
  input : ℕ
  depth : ℚ
  lfofreq : ℚ
  feedback : ℚ
  in_fader : FaderState
  modamp : ModAmpNode
  mod : LfoNode
  dls : DelayNode
  flange : InterpNode
  life : PNode
  deriving DecidableEq, Repr

/-- `Flanger.__init__(input, depth, lfofreq, feedback, mul, add)` translated
from `flanger.py`: stores the four attributes, builds `InputFader(input)`,
`Sig(depth, mul=0.005)`, `Sine(freq=lfofreq, mul=modamp, add=0.005)`,
`Delay(in_fader, delay=mod, feedback=feedback)` and
`Interp(in_fader, dls, mul=mul, add=add)`. -/
def flangerMake (input : ℕ) (depth lfofreq feedback mul add : ℚ) : FlangerState :=
  { input := input
    depth := depth
    lfofreq := lfofreq
    feedback := feedback
    in_fader := faderMake input
    modamp := { value := depth, mul := 1/200, life := pnodeFresh }
    mod := { freq := lfofreq, add := 1/200, life := pnodeFresh }
    dls := { feedback := feedback, life := pnodeFresh }
    flange := { mul := mul, add := add }
    life := pnodeFresh }

/-- The `feedback` default of `Flanger.__init__` in the source:
`feedback=0.5`. -/
def flangerCtorFeedbackDefault : ℚ := 1/2

/-- The `feedback` default stated by the Flanger class docstring in the
source: "Defaults to 0.25.". -/
def flangerDocFeedbackDefault : ℚ := 1/4

/-- `Flanger(input)` with every optional argument omitted: the constructor
defaults in the source are `depth=0.75, lfofreq=0.2, feedback=0.5, mul=1,
add=0`. -/
def flangerMakeDefault (input : ℕ) : FlangerState :=
  flangerMake input (3/4) (1/5) flangerCtorFeedbackDefault 1 0

/-- `Flanger.setInput(x, fadetime)`: stores the new input reference and
forwards `x` and `fadetime` to the `InputFader`. -/
def flangerSetInput (s : FlangerState) (x : ℕ) (fadetime : ℚ) : FlangerState :=
  { s with input := x, in_fader := faderSetInput s.in_fader x fadetime }

/-- `Flanger.setInput(x)` with the `fadetime` argument omitted: the source
default is `fadetime=0.05`. -/
def flangerSetInputDefault (s : FlangerState) (x : ℕ) : FlangerState :=
  flangerSetInput s x (1/20)

/-- `Flanger.setDepth(x)`: stores the new `depth` attribute and assigns
`self._modamp.value = x`, unmodified. -/
def flangerSetDepth (s : FlangerState) (x : ℚ) : FlangerState :=
  { s with depth := x, modamp := { s.modamp with value := x } }

/-- `Flanger.setLfoFreq(x)`: stores the new `lfofreq` attribute and assigns
`self._mod.freq = x`. -/
def flangerSetLfoFreq (s : FlangerState) (x : ℚ) : FlangerState :=
  { s with lfofreq := x, mod := { s.mod with freq := x } }

/-- `Flanger.setFeedback(x)`: stores the new `feedback` attribute and
assigns `self._dls.feedback = x`, unmodified. -/
def flangerSetFeedback (s : FlangerState) (x : ℚ) : FlangerState :=
  { s with feedback := x, dls := { s.dls with feedback := x } }

/-- `Flanger.play`: plays `_modamp`, `_mod` and `_dls`, then
`PyoObject.play` on the object itself. -/
def flangerPlay (s : FlangerState) : FlangerState :=
  { s with
    modamp := { s.modamp with life := pnodePlay s.modamp.life }
    mod := { s.mod with life := pnodePlay s.mod.life }
    dls := { s.dls with life := pnodePlay s.dls.life }
    life := pnodePlay s.life }

/-- `Flanger.stop`: stops `_modamp`, `_mod` and `_dls`, then
`PyoObject.stop` on the object itself. -/
def flangerStop (s : FlangerState) : FlangerState :=
  { s with
    modamp := { s.modamp with life := pnodeStop s.modamp.life }
    mod := { s.mod with life := pnodeStop s.mod.life }
    dls := { s.dls with life := pnodeStop s.dls.life }
    life := pnodeStop s.life }

/-- The `input` property getter: returns `self._input`. -/
def flangerInputGet (s : FlangerState) : ℕ :=
  s.input

/-- The `input` property setter: `self.setInput(x)` (default fadetime). -/
def flangerInputAssign (s : FlangerState) (x : ℕ) : FlangerState :=
  flangerSetInputDefault s x

/-- The `depth` property getter: returns `self._depth`. -/
def flangerDepthGet (s : FlangerState) : ℚ :=
  s.depth

/-- The `depth` property setter: `self.setDepth(x)`. -/
def flangerDepthAssign (s : FlangerState) (x : ℚ) : FlangerState :=
  flangerSetDepth s x

/-- The `lfofreq` property getter: returns `self._lfofreq`. -/
def flangerLfoFreqGet (s : FlangerState) : ℚ :=
  s.lfofreq

/-- The `lfofreq` property setter: `self.setLfoFreq(x)`. -/
def flangerLfoFreqAssign (s : FlangerState) (x : ℚ) : FlangerState :=
  flangerSetLfoFreq s x

/-- The `feedback` property getter: returns `self._feedback`. -/
def flangerFeedbackGet (s : FlangerState) : ℚ :=
  s.feedback

/-- The `feedback` property setter: `self.setFeedback(x)`. -/
def flangerFeedbackAssign (s : FlangerState) (x : ℚ) : FlangerState :=
  flangerSetFeedback s x

/-- Modelled from the spec: the Phaser/Vocoder geometric frequency ladder
of §4.4/§4.5.  The centre frequency of stage `i` is `freq × spread^i`, clamped
to `0.99 × Nyquist` when it would reach or exceed Nyquist (`sr/2`).  The
Phaser and Vocoder nodes themselves live in the external pyo library;
`src/Phaser.py` and `src/Vocoder.py` only construct them. -/
def stageCenterFreq (sr freq spread : ℚ) (i : ℕ) : ℚ :=
  if sr / 2 ≤ freq * spread ^ i then (99/100) * (sr / 2) else freq * spread ^ i

/-- The stage count used by the Phaser example script: `num=20`. -/
def phaserNum : ℕ := 20

/-- The stage count used by the Vocoder example script: `stages=32`. -/
def vocoderStages : ℕ := 32

/-! ## Real-valued signal model

Per-sample semantics of the signal graphs built by `RingMod.__init__` and
`Flanger.__init__`.  The primitives (`Sine`, `Sig`, `Delay`, `Interp`) are
external pyo objects, so their per-sample behaviour is modelled from the
specification; the way the repository wires them together is taken from the
sources. -/

noncomputable section

/-- Modelled from the spec: the phase accumulated by the `Sine` oscillator
primitive; each sample advances the phase by `2π·freq(n)/SR` radians, so a
constant frequency `f` gives phase `2π·f·n/SR` at sample `n`. -/
def sinePhase (sr : ℝ) (freq : ℕ → ℝ) : ℕ → ℝ
  | 0 => 0
  | n + 1 => sinePhase sr freq n + 2 * Real.pi * freq n / sr

/-- Modelled from the spec: the output of the `Sine(freq, mul, add)` primitive:
the sine of the accumulated phase, scaled by `mul` and offset by `add`
(the uniform pyo `mul`/`add` contract; `mul` and `add` may themselves be
signal streams). -/
def sineOut (sr : ℝ) (freq mul add : ℕ → ℝ) (n : ℕ) : ℝ :=
  mul n * Real.sin (sinePhase sr freq n) + add n

/-- Modelled from the spec: the output of the `Sig(value, mul, add)` primitive:
`value · mul + add`. -/
def sigOut (value mul add : ℝ) : ℝ :=
  value * mul + add

/-- Modelled from the spec: the output of the `Interp(a, b, interp, mul, add)`
primitive: the dry/wet interpolation `a + interp·(b − a)`, scaled by `mul` and
offset by `add`. -/
def interpOut (a b interp mul add : ℝ) : ℝ :=
  (a + interp * (b - a)) * mul + add

/-- Modelled from the spec: linear fractional-interpolation read of the
delay buffer `w` (indexed by write tick) at real position `p` (in samples,
measured on the write-tick axis). -/
def fracRead (w : ℤ → ℝ) (p : ℝ) : ℝ :=
  (1 - (p - ⌊p⌋)) * w ⌊p⌋ + (p - ⌊p⌋) * w (⌊p⌋ + 1)

/-- Modelled from the spec: the value written into the delay line at tick
`n`: the input sample plus `feedback` times the value read from the buffer
at distance `d n` samples.  Positions not yet written (tick ≥ `n`) or
before the start read as `0` (zero-initialised buffer, read before
write). -/
def delayWritten (input : ℕ → ℝ) (d : ℕ → ℝ) (fb : ℝ) : ℕ → ℝ
  | n =>
      input n + fb * fracRead
        (fun j => if _h : 0 ≤ j ∧ j < (n : ℤ) then delayWritten input d fb j.toNat else 0)
        ((n : ℝ) - d n)
  termination_by n => n
  decreasing_by omega

/-- The delay buffer contents visible at tick `n`: written values for past
ticks, `0` elsewhere. -/
def delayBuf (input : ℕ → ℝ) (d : ℕ → ℝ) (fb : ℝ) (n : ℕ) : ℤ → ℝ :=
  fun j => if 0 ≤ j ∧ j < (n : ℤ) then delayWritten input d fb j.toNat else 0

/-- Modelled from the spec: the output of the delay line at tick `n`: the
fractional read of the buffer at distance `d n` samples behind the write
position. -/
def delayOut (input : ℕ → ℝ) (d : ℕ → ℝ) (fb : ℝ) (n : ℕ) : ℝ :=
  fracRead (delayBuf input d fb n) ((n : ℝ) - d n)

/-- A plain delayed copy of the input: the same fractional buffer read with
the raw input history as buffer contents (what the delay line holds when no
feedback is injected). -/
def pureDelay (input : ℕ → ℝ) (d : ℕ → ℝ) (n : ℕ) : ℝ :=
  fracRead (fun j => if 0 ≤ j ∧ j < (n : ℤ) then input j.toNat else 0) ((n : ℝ) - d n)

/-- Output of the Flanger field `_modamp = Sig(depth, mul=0.005)` node. -/
def flangerModAmp (depth : ℝ) : ℝ :=
  sigOut depth 0.005 0

/-- Output of the Flanger field `_mod = Sine(freq=lfofreq, mul=modamp, add=0.005)`
node: the per-sample delay time, in seconds, fed to the delay line. -/
def flangerDelayTime (sr depth lfofreq : ℝ) (n : ℕ) : ℝ :=
  sineOut sr (fun _ => lfofreq) (fun _ => flangerModAmp depth) (fun _ => 0.005) n

/-- The delay-time stream of the flanger converted to samples. -/
def flangerDelaySamples (sr depth lfofreq : ℝ) (n : ℕ) : ℝ :=
  flangerDelayTime sr depth lfofreq n * sr

/-- Output of the Flanger field `_dls = Delay(in_fader, delay=mod, feedback=fb)`
node: the modulated delay line with feedback applied to the input. -/
def flangerDelayed (sr : ℝ) (input : ℕ → ℝ) (depth lfofreq fb : ℝ) (n : ℕ) : ℝ :=
  delayOut input (flangerDelaySamples sr depth lfofreq) fb n

/-- Output of `_flange = Interp(in_fader, dls, mul=mul, add=add)`: the
final per-sample output of the Flanger (the pyo `Interp`
default `interp=0.5`). -/
def flangerOut (sr : ℝ) (input : ℕ → ℝ) (depth lfofreq fb mul add : ℝ) (n : ℕ) : ℝ :=
  interpOut (input n) (flangerDelayed sr input depth lfofreq fb n) (1/2) mul add

/-- Output of the RingMod signal graph `Sig(Sine(freq, mul=in_fader),
mul, add)` on one channel: the oscillator scaled by the input stream, then
by `mul`, offset by `add`. -/
def ringModOut (sr : ℝ) (input freq : ℕ → ℝ) (mul add : ℝ) (n : ℕ) : ℝ :=
  sigOut (sineOut sr freq input (fun _ => 0) n) mul add

/-- RingMod output on channel `i` of a multichannel input/frequency pair:
channel `i` uses input stream `input i` and frequency stream `freq i`. -/
def ringModOutCh (sr : ℝ) (input freq : ℕ → ℕ → ℝ) (mul add : ℝ) (i n : ℕ) : ℝ :=
  ringModOut sr (input i) (freq i) mul add n

end

/-! ## Helper lemmas -/

/-- With a constant frequency `f`, the accumulated oscillator phase at
sample `n` is the closed form `2π·f·n/SR`. -/
theorem sinePhase_const (sr f : ℝ) (n : ℕ) :
    sinePhase sr (fun _ => f) n = 2 * Real.pi * f * n / sr := by
  induction n with
  | zero => simp [sinePhase]
  | succ k ih =>
      rw [sinePhase, ih]
      push_cast
      ring

/-- With zero feedback the delay line writes the raw input. -/
theorem delayWritten_zero_fb (input d : ℕ → ℝ) (n : ℕ) :
    delayWritten input d 0 n = input n := by
  rw [delayWritten]
  ring

/-- With zero feedback the output of the delay line is a plain (fractionally
interpolated) delayed copy of the input. -/
theorem delayOut_zero_fb (input d : ℕ → ℝ) (n : ℕ) :
    delayOut input d 0 n = pureDelay input d n := by
  have hb : delayBuf input d 0 n
      = fun j => if 0 ≤ j ∧ j < (n : ℤ) then input j.toNat else 0 := by
    funext j
    unfold delayBuf
    split
    · exact delayWritten_zero_fb input d _
    · rfl
  rw [delayOut, pureDelay, hb]

/-- Playing a primitive node twice increments its start count at most
once. -/
theorem pnodePlay_play_startCount (p : PNode) :
    (pnodePlay (pnodePlay p)).startCount = (pnodePlay p).startCount := by
  by_cases h : p.playing <;> simp [pnodePlay, h]

/-! ## Claim theorems -/

/-- Claim C1: a RingMod with constant frequency `f`, `mul=1`, `add=0` and a
constant unit input outputs `sin(2π·f·n/SR)` at every sample `n`; in
general, output channel `i` at sample `n` is the input sample times the
sine of the oscillator phase accumulated from the per-sample-resolved
frequency stream of channel `i`, scaled by `mul` and offset by `add`. -/
theorem ringmod_output_formula :
    (∀ (sr f : ℝ) (n : ℕ),
        ringModOut sr (fun _ => 1) (fun _ => f) 1 0 n
          = Real.sin (2 * Real.pi * f * n / sr)) ∧
    (∀ (sr : ℝ) (input freq : ℕ → ℕ → ℝ) (mul add : ℝ) (i n : ℕ),
        ringModOutCh sr input freq mul add i n
          = input i n * Real.sin (sinePhase sr (freq i) n) * mul + add) := by
  constructor
  · intro sr f n
    rw [ringModOut, sineOut, sigOut, sinePhase_const]
    ring
  · intro sr input freq mul add i n
    rw [ringModOutCh, ringModOut, sineOut, sigOut]
    ring

/-- Claim C2, counterexample: the claimed delay-time formula
`modAmplitude × (sin(2π·lfofreq·n/SR)+1)/2 + 0.005` disagrees with the
code at `depth=1`, `lfofreq=1`, `SR=4`, `n=0`: the code yields `0.005 s`
(the LFO is bipolar: `modAmp·sin + 0.005`), the claim yields `0.0075 s`. -/
theorem flanger_delaytime_claim_counterexample :
    flangerDelayTime 4 1 1 0
      ≠ flangerModAmp 1 * ((Real.sin (2 * Real.pi * 1 * 0 / 4) + 1) / 2) + 0.005 := by
  rw [flangerDelayTime, sineOut, flangerModAmp, sigOut]
  norm_num [sinePhase]

/-- Claim C2 (amended): with depth and lfofreq constant, the per-sample
delay time equals `modAmplitude × sin(2π·lfofreq·n/SR) + 0.005` seconds
with `modAmplitude = depth × 0.005`, so for depth in `[0,1]` the delay
sweeps between `5 − depth×5` ms and `5 + depth×5` ms (centred on 5 ms),
not between 5 ms and `5 + depth×5` ms. -/
theorem flanger_delaytime_amended (sr depth lfofreq : ℝ) (n : ℕ)
    (h0 : 0 ≤ depth) (h1 : depth ≤ 1) :
    flangerDelayTime sr depth lfofreq n
      = depth * 0.005 * Real.sin (2 * Real.pi * lfofreq * n / sr) + 0.005 ∧
    0.005 - depth * 0.005 ≤ flangerDelayTime sr depth lfofreq n ∧
    flangerDelayTime sr depth lfofreq n ≤ 0.005 + depth * 0.005 := by
  have he : flangerDelayTime sr depth lfofreq n
      = depth * 0.005 * Real.sin (2 * Real.pi * lfofreq * n / sr) + 0.005 := by
    rw [flangerDelayTime, sineOut, flangerModAmp, sigOut, sinePhase_const]
    ring
  refine ⟨he, ?_, ?_⟩
  · rw [he]
    nlinarith [Real.neg_one_le_sin (2 * Real.pi * lfofreq * n / sr)]
  · rw [he]
    nlinarith [Real.sin_le_one (2 * Real.pi * lfofreq * n / sr)]

/-- Witness for the amended C2 theorem at `SR=44100`, `depth=1/2`,
`lfofreq=2`, `n=0`. -/
theorem flanger_delaytime_amended_witness :
    (0:ℝ) ≤ 1/2 ∧ (1/2:ℝ) ≤ 1 ∧
      (flangerDelayTime 44100 (1/2) 2 0
          = (1/2) * 0.005 * Real.sin (2 * Real.pi * 2 * ((0:ℕ):ℝ) / 44100) + 0.005 ∧
        0.005 - (1/2) * 0.005 ≤ flangerDelayTime 44100 (1/2) 2 0 ∧
        flangerDelayTime 44100 (1/2) 2 0 ≤ 0.005 + (1/2) * 0.005) :=
  ⟨by norm_num, by norm_num,
    flanger_delaytime_amended 44100 (1/2) 2 0 (by norm_num) (by norm_num)⟩

/-- Claim C4: the final Flanger output (with the `mul=1` of the node itself,
`add=0`) is the dry/wet interpolation
`out[n] = input[n] + interp × (delayed_with_feedback[n] − input[n])` with
the pyo default `interp = 1/2`; with `feedback=0` the delayed branch is a
plain delayed copy of the input; with `depth=0` the delay time is the
constant `0.005 s` (5 ms). -/
theorem flanger_output_interpolation :
    (∀ (sr : ℝ) (input : ℕ → ℝ) (depth lfofreq fb : ℝ) (n : ℕ),
        flangerOut sr input depth lfofreq fb 1 0 n
          = input n + (1/2) * (flangerDelayed sr input depth lfofreq fb n - input n)) ∧
    (∀ (sr : ℝ) (input : ℕ → ℝ) (depth lfofreq : ℝ) (n : ℕ),
        flangerDelayed sr input depth lfofreq 0 n
          = pureDelay input (flangerDelaySamples sr depth lfofreq) n) ∧
    (∀ (sr lfofreq : ℝ) (n : ℕ), flangerDelayTime sr 0 lfofreq n = 0.005) := by
  refine ⟨?_, ?_, ?_⟩
  · intro sr input depth lfofreq fb n
    rw [flangerOut, interpOut]
    ring
  · intro sr input depth lfofreq n
    rw [flangerDelayed]
    exact delayOut_zero_fb input (flangerDelaySamples sr depth lfofreq) n
  · intro sr lfofreq n
    rw [flangerDelayTime, sineOut, flangerModAmp, sigOut]
    ring

/-- Claim C3: a Flanger constructed without a feedback argument stores and
injects the constructor default `0.5` into its delay line, while the class
docstring documents `0.25`; the two defaults disagree and the value
actually applied is that of the constructor. -/
theorem flanger_feedback_default_mismatch (input : ℕ) :
    (flangerMakeDefault input).feedback = flangerCtorFeedbackDefault ∧
    (flangerMakeDefault input).dls.feedback = flangerCtorFeedbackDefault ∧
    flangerCtorFeedbackDefault = 1/2 ∧
    flangerDocFeedbackDefault = 1/4 ∧
    flangerCtorFeedbackDefault ≠ flangerDocFeedbackDefault :=
  ⟨rfl, rfl, rfl, rfl, by norm_num [flangerCtorFeedbackDefault, flangerDocFeedbackDefault]⟩

/-- Claim C5: `stop` is idempotent on RingMod and Flanger — a second
`stop` leaves the whole state (the node and every owned child) unchanged,
and every lifecycle gate outputs silence after a stop; `play` twice does
not start any owned child a second time, and from a fresh construction
the start count of each child is exactly `1` after two plays. -/
theorem stop_play_idempotence :
    (∀ s : RingModState, ringModStop (ringModStop s) = ringModStop s) ∧
    (∀ (s : RingModState) (v : ℚ),
        gatedOut (ringModStop s).life v = 0 ∧
        gatedOut (ringModStop s).mod.life v = 0) ∧
    (∀ s : RingModState,
        (ringModPlay (ringModPlay s)).mod.life.startCount
          = (ringModPlay s).mod.life.startCount) ∧
    (ringModPlay (ringModPlay (ringModMakeDefault 0))).mod.life.startCount = 1 ∧
    (∀ s : FlangerState, flangerStop (flangerStop s) = flangerStop s) ∧
    (∀ (s : FlangerState) (v : ℚ),
        gatedOut (flangerStop s).life v = 0 ∧
        gatedOut (flangerStop s).modamp.life v = 0 ∧
        gatedOut (flangerStop s).mod.life v = 0 ∧
        gatedOut (flangerStop s).dls.life v = 0) ∧
    (∀ s : FlangerState,
        (flangerPlay (flangerPlay s)).modamp.life.startCount
          = (flangerPlay s).modamp.life.startCount ∧
        (flangerPlay (flangerPlay s)).mod.life.startCount
          = (flangerPlay s).mod.life.startCount ∧
        (flangerPlay (flangerPlay s)).dls.life.startCount
          = (flangerPlay s).dls.life.startCount) ∧
    ((flangerPlay (flangerPlay (flangerMakeDefault 0))).modamp.life.startCount = 1 ∧
     (flangerPlay (flangerPlay (flangerMakeDefault 0))).mod.life.startCount = 1 ∧
     (flangerPlay (flangerPlay (flangerMakeDefault 0))).dls.life.startCount = 1) := by
  refine ⟨fun s => rfl, fun s v => ⟨rfl, rfl⟩, ?_, by decide, fun s => rfl,
    fun s v => ⟨rfl, rfl, rfl, rfl⟩, ?_, by decide⟩
  · intro s
    exact pnodePlay_play_startCount s.mod.life
  · intro s
    exact ⟨pnodePlay_play_startCount s.modamp.life,
      pnodePlay_play_startCount s.mod.life,
      pnodePlay_play_startCount s.dls.life⟩

/-- Claim C6: `setInput` with the fadetime argument omitted routes the new
input through the internal crossfader with fade duration exactly `0.05 s`
(the old input is retained for the fade-out); the new-input gain of the
crossfader is a linear ramp `t/0.05` reaching `1` at `0.05 s`, after which the
old input is released (dropped from the fader) and stopped. -/
theorem setinput_default_crossfade :
    (∀ (s : RingModState) (x : ℕ),
        (ringModSetInputDefault s x).in_fader.fadetime = 1/20 ∧
        (ringModSetInputDefault s x).in_fader.input = x ∧
        (ringModSetInputDefault s x).input = x ∧
        (ringModSetInputDefault s x).in_fader.old = some s.in_fader.input) ∧
    (∀ (s : FlangerState) (x : ℕ),
        (flangerSetInputDefault s x).in_fader.fadetime = 1/20 ∧
        (flangerSetInputDefault s x).in_fader.input = x ∧
        (flangerSetInputDefault s x).input = x ∧
        (flangerSetInputDefault s x).in_fader.old = some s.in_fader.input) ∧
    (∀ t : ℚ, 0 ≤ t → t < 1/20 → faderGain (1/20) t = 20 * t) ∧
    faderGain (1/20) (1/20) = 1 ∧
    (∀ (f : FaderState) (oldLife : PNode) (t : ℚ), f.fadetime ≤ t →
        (faderAfter f t oldLife).1.old = none ∧
        (faderAfter f t oldLife).2.playing = false ∧
        (faderAfter f t oldLife).2.startCount = oldLife.startCount) := by
  refine ⟨fun s x => ⟨rfl, rfl, rfl, rfl⟩, fun s x => ⟨rfl, rfl, rfl, rfl⟩,
    ?_, by norm_num [faderGain], ?_⟩
  · intro t h0 h2
    rw [faderGain, if_neg (not_le.mpr h2), div_eq_iff (by norm_num : ((1:ℚ)/20) ≠ 0)]
    ring
  · intro f oldLife t h
    rw [faderAfter, if_pos h]
    exact ⟨rfl, rfl, rfl⟩

/-- Witness for C6: a RingMod whose input is swapped with the default
fadetime gets a `0.05 s` crossfade, the ramp halfway is `0.5`, and once
the fade elapses the old input is released and stopped. -/
theorem setinput_default_crossfade_witness :
    (0:ℚ) ≤ 1/40 ∧ (1/40:ℚ) < 1/20 ∧
    faderGain (1/20) (1/40) = 20 * (1/40) ∧
    (ringModSetInputDefault (ringModMakeDefault 0) 1).in_fader.fadetime = 1/20 ∧
    (faderAfter (ringModSetInputDefault (ringModMakeDefault 0) 1).in_fader (1/20)
        pnodeFresh).2.playing = false ∧
    (faderAfter (ringModSetInputDefault (ringModMakeDefault 0) 1).in_fader (1/20)
        pnodeFresh).1.old = none := by
  refine ⟨by norm_num, by norm_num, ?_, ?_, ?_, ?_⟩
  · exact setinput_default_crossfade.2.2.1 (1/40) (by norm_num) (by norm_num)
  · exact ((setinput_default_crossfade.1) (ringModMakeDefault 0) 1).1
  · exact ((setinput_default_crossfade.2.2.2.2) _ pnodeFresh (1/20) (le_refl (1/20 : ℚ))).2.1
  · exact ((setinput_default_crossfade.2.2.2.2) _ pnodeFresh (1/20) (le_refl (1/20 : ℚ))).1

/-- Claim C7: stage `i` of the Phaser/Vocoder frequency ladder has centre
frequency `freq × spread^i`, except that a stage whose computed frequency
reaches or exceeds Nyquist (`SR/2`) is clamped to `0.99 × Nyquist`, for
every stage index `i` below the stage count. -/
theorem phaser_vocoder_freq_ladder (sr freq spread : ℚ) (stages i : ℕ)
    (hi : i < stages) :
    (freq * spread ^ i < sr / 2 →
        stageCenterFreq sr freq spread i = freq * spread ^ i) ∧
    (sr / 2 ≤ freq * spread ^ i →
        stageCenterFreq sr freq spread i = (99/100) * (sr / 2)) := by
  constructor
  · intro h
    rw [stageCenterFreq, if_neg (not_le.mpr h)]
  · intro h
    rw [stageCenterFreq, if_pos h]

/-- Witness for C7 at `SR=44100` with the stage counts of the example scripts:
stage 1 of the Phaser `num=20` ladder from 100 Hz with spread 2 sits at
200 Hz, and stage 30 of the Vocoder `stages=32` ladder is clamped to
`0.99 × 22050`. -/
theorem phaser_vocoder_freq_ladder_witness :
    1 < phaserNum ∧ 30 < vocoderStages ∧
    stageCenterFreq 44100 100 2 1 = 200 ∧
    stageCenterFreq 44100 100 2 30 = (99/100) * (44100 / 2) := by
  refine ⟨by decide, by decide, ?_, ?_⟩
  · have h := (phaser_vocoder_freq_ladder 44100 100 2 phaserNum 1 (by decide)).1
      (by norm_num)
    rw [h]; norm_num
  · exact (phaser_vocoder_freq_ladder 44100 100 2 vocoderStages 30 (by decide)).2
      (by norm_num)

/-- Claim C8: `Flanger.setDepth` and `Flanger.setFeedback` are total on
every rational argument (including values outside the documented ranges)
and forward the argument unmodified to the owned sub-node (`_modamp.value`
and `_dls.feedback` respectively), besides storing it. -/
theorem flanger_setters_total_forward (s : FlangerState) (x : ℚ) :
    (flangerSetDepth s x).depth = x ∧
    (flangerSetDepth s x).modamp.value = x ∧
    (flangerSetFeedback s x).feedback = x ∧
    (flangerSetFeedback s x).dls.feedback = x :=
  ⟨rfl, rfl, rfl, rfl⟩

/-- Claim C9: `RingMod.setFreq(x)` updates exactly the stored `freq`
attribute and the frequency of the internal oscillator; the stored input reference, the
input fader (hence no crossfade), the lifecycle state of the oscillator,
the output `Sig` and the lifecycle state of the node itself are unchanged. -/
theorem ringmod_setfreq_frame (s : RingModState) (x : ℚ) :
    (ringModSetFreq s x).freq = x ∧
    (ringModSetFreq s x).mod.freq = x ∧
    (ringModSetFreq s x).input = s.input ∧
    (ringModSetFreq s x).in_fader = s.in_fader ∧
    (ringModSetFreq s x).mod.life = s.mod.life ∧
    (ringModSetFreq s x).ring = s.ring ∧
    (ringModSetFreq s x).life = s.life :=
  ⟨rfl, rfl, rfl, rfl, rfl, rfl, rfl⟩

/-- Claim C10: assigning a public attribute is observably equivalent to
calling the corresponding explicit setter (same resulting state, so the
same stored attribute and the same value forwarded to the same sub-node),
and the matching property getter then returns exactly the assigned
value — for `freq`/`input` on RingMod and
`depth`/`lfofreq`/`feedback`/`input` on Flanger. -/
theorem property_assign_setter_equiv (rm : RingModState) (fl : FlangerState)
    (x : ℚ) (y : ℕ) :
    ringModFreqAssign rm x = ringModSetFreq rm x ∧
    ringModFreqGet (ringModFreqAssign rm x) = x ∧
    ringModInputAssign rm y = ringModSetInputDefault rm y ∧
    ringModInputGet (ringModInputAssign rm y) = y ∧
    flangerDepthAssign fl x = flangerSetDepth fl x ∧
    flangerDepthGet (flangerDepthAssign fl x) = x ∧
    flangerLfoFreqAssign fl x = flangerSetLfoFreq fl x ∧
    flangerLfoFreqGet (flangerLfoFreqAssign fl x) = x ∧
    flangerFeedbackAssign fl x = flangerSetFeedback fl x ∧
    flangerFeedbackGet (flangerFeedbackAssign fl x) = x ∧
    flangerInputAssign fl y = flangerSetInputDefault fl y ∧
    flangerInputGet (flangerInputAssign fl y) = y :=
  ⟨rfl, rfl, rfl, rfl, rfl, rfl, rfl, rfl, rfl, rfl, rfl, rfl⟩

end GuitarEffects
